import Mathlib

/-!
Shallow embedding of `src/lambda.js` (an AWS Lambda handler that forwards a
pull-request diff to a Bedrock retrieve-and-generate service, persists the
generated test cases to S3 and returns a structured result).

External, platform-provided operations (the Bedrock call, the S3 upload, the
URL presigner, the clock and `JSON.parse`) are modelled as oracles packed in an
`Env` record; every side effect the code performs is recorded in an explicit
trace of `Effect` values so that ordering and occurrence claims can be stated.
JavaScript `undefined` is modelled as `Option.none`; string interpolation of a
possibly-undefined value renders `none` as `"undefined"`, as JS template
literals do.
-/

namespace Lambda

/-- `const AWS_REGION = "us-west-2"` (lambda.js line 10). -/
def AWS_REGION : String := "us-west-2"

/-- `const MODEL_ID = ...` (lambda.js line 11). -/
def MODEL_ID : String := "anthropic.claude-3-5-sonnet-20241022-v2:0"

/-- `const KNOWLEDGE_BASE_ID = "ZEVRTT7CCF"` (lambda.js line 12). -/
def KNOWLEDGE_BASE_ID : String := "ZEVRTT7CCF"

/-- `const S3_BUCKET_NAME = "closedaioutput"` (lambda.js line 14). -/
def S3_BUCKET_NAME : String := "closedaioutput"

/-- The request record decoded from the event body (lambda.js lines 19-35).
Every field may be absent (`none` models JavaScript `undefined`).  Numeric
JSON values that are only ever interpolated into strings (`pr_number`) are
modelled by their string rendering. -/
structure RequestData where
  repository : Option String := none
  pr_number : Option String := none
  repositoryUrl : Option String := none
  commitSha : Option String := none
  diff : Option String := none
  branch : Option String := none
  pr_description : Option String := none
  knowledgeBaseId : Option String := none
  modelId : Option String := none
  numberOfResults : Option Nat := none
  searchType : Option String := none
  maxTokens : Option Nat := none
  temperature : Option ℚ := none
  topP : Option ℚ := none
  includeMetadata : Option Bool := none
deriving DecidableEq

/-- The values bound by the destructuring with defaults at lambda.js
lines 19-35.  `repository`, `pr_number`, `repositoryUrl`, `commitSha`,
`diff`, `branch` and `pr_description` have no default and stay optional. -/
structure Params where
  repository : Option String
  pr_number : Option String
  repositoryUrl : Option String
  commitSha : Option String
  diff : Option String
  branch : Option String
  pr_description : Option String
  knowledgeBaseId : String
  modelId : String
  numberOfResults : Nat
  searchType : String
  maxTokens : Nat
  temperature : ℚ
  topP : ℚ
  includeMetadata : Bool
deriving DecidableEq

/-- The destructuring with defaults, lambda.js lines 19-35. -/
def extractParams (requestData : RequestData) : Params where
  repository := requestData.repository
  pr_number := requestData.pr_number
  repositoryUrl := requestData.repositoryUrl
  commitSha := requestData.commitSha
  diff := requestData.diff
  branch := requestData.branch
  pr_description := requestData.pr_description
  knowledgeBaseId := requestData.knowledgeBaseId.getD KNOWLEDGE_BASE_ID
  modelId := requestData.modelId.getD MODEL_ID
  numberOfResults := requestData.numberOfResults.getD 5
  searchType := requestData.searchType.getD "HYBRID"
  maxTokens := requestData.maxTokens.getD 1000
  temperature := requestData.temperature.getD (7 / 10)
  topP := requestData.topP.getD (9 / 10)
  includeMetadata := requestData.includeMetadata.getD true

/-- JavaScript template-literal interpolation of a possibly-undefined value:
`undefined` renders as the string `"undefined"`. -/
def jstr (o : Option String) : String := o.getD "undefined"

/-- JavaScript `a || b` on a possibly-undefined string: `undefined` and the
empty string are falsy (used for `apiResponse.sessionId || "none"`,
lambda.js line 162). -/
def jsOr (o : Option String) (d : String) : String :=
  match o with
  | none => d
  | some s => if s = "" then d else s

/-- The prompt template of lambda.js lines 39-94 with `repository`,
`pr_description` and `diff` interpolated. -/
def buildQuery (p : Params) : String :=
  "\n  You are a QA automation assistant specialized in mobile app testing. Given the Git diff and PR description, your task is to generate detailed, step-by-step manual test cases in a structured and human-readable format suitable for mobile-mcp.\n\nFollow this structure and behavior:\n\nApp: Always include the package identifier, e.g., App: com.qazi9amaan.rntodoapp.\n\nTest: Provide a concise but descriptive title of the test scenario (e.g., \"Bug Fix Verification - Duplicate Todo Item Creation\").\n\nWrite each action and validation step as a clear, user-driven instruction.\nInclude logical pauses like \"Wait for screen to load\" where needed.\nInclude validation steps like counting elements, verifying text, checking visibility, etc.\nUse screenshots strategically to capture UI state before and after critical actions.\nEnsure the test case covers both the happy path and basic edge cases relevant to the code change.\nUse the PR title, description, and code diff to infer what functionality has changed or been added. Then generate a test scenario that verifies this change thoroughly.\n\nHere\x27s an example of your expected output format:\nApp: com.qazi9amaan.rntodoapp  \nTest: Bug Fix Verification - Duplicate Todo Item Creation  \n\nLaunch the todo app  \nWait for the main screen to load  \nCount the current number of todo items  \nTake a screenshot of the initial state  \nTap on the add task input field  \nType \x27Test task for bug verification\x27  \nTap the add button  \nWait for the task to be added  \nCount the number of todo items again  \nVerify that exactly 1 new item was added  \nVerify the new task shows \x27Test task for bug verification\x27  \nTake a screenshot showing the single new item  \nClear the input field  \nType \x27Second test task\x27  \nTap the add button  \nWait for the task to be added  \nCount the total number of todo items  \nVerify that exactly 1 more item was added  \nVerify both tasks are visible in the list  \nTake a screenshot of the final state  \nMark the first task as completed  \nVerify only the first task shows as completed  \nDelete the second task  \nVerify the task is removed from the list  \nTake a final screenshot  \nNow, based on the following PR description and code diff, generate a test case in this exact format with minimum 20 test cases.\n\n[PR Title]\n"
    ++ jstr p.repository
    ++ "\n\n[PR Description]\n"
    ++ jstr p.pr_description
    ++ "\n\n[Git Diff]\n"
    ++ jstr p.diff
    ++ "\n  "

/-- The payload sent with the `RetrieveAndGenerateCommand` (lambda.js
lines 103-129), flattened from its nested JSON shape; every leaf of the
source payload is a field here.  Note `includeMetadata` is destructured at
line 34 but never placed in the payload. -/
structure GenPayload where
  inputText : String
  knowledgeBaseId : String
  modelArn : String
  numberOfResults : Nat
  overrideSearchType : String
  maxTokens : Nat
  temperature : ℚ
  topP : ℚ
deriving DecidableEq

/-- Builds the `RetrieveAndGenerateCommand` payload from the extracted
parameters (lambda.js lines 103-129). -/
def buildPayload (p : Params) : GenPayload where
  inputText := buildQuery p
  knowledgeBaseId := p.knowledgeBaseId
  modelArn := p.modelId
  numberOfResults := p.numberOfResults
  overrideSearchType := p.searchType
  maxTokens := p.maxTokens
  temperature := p.temperature
  topP := p.topP

/-- The response of a successful `RetrieveAndGenerateCommand`:
`apiResponse.output.text` and the optional `apiResponse.sessionId`
(lambda.js lines 138, 162). -/
structure ApiResponse where
  outputText : String
  sessionId : Option String
deriving DecidableEq

/-- A wall-clock date as obtained from `new Date()`; the fields are what
`toISOString` renders. -/
structure JsDate where
  year : Nat
  month : Nat
  day : Nat
  hour : Nat
  minute : Nat
  second : Nat
  millis : Nat
deriving DecidableEq

/-- Two decimal digits (ECMA `toISOString` zero-padded field). -/
def pad2 (n : Nat) : String :=
  String.mk [Nat.digitChar (n / 10 % 10), Nat.digitChar (n % 10)]

/-- Three decimal digits (ECMA `toISOString` millisecond field). -/
def pad3 (n : Nat) : String :=
  String.mk [Nat.digitChar (n / 100 % 10), Nat.digitChar (n / 10 % 10),
    Nat.digitChar (n % 10)]

/-- Four decimal digits (ECMA `toISOString` year field). -/
def pad4 (n : Nat) : String :=
  String.mk [Nat.digitChar (n / 1000 % 10), Nat.digitChar (n / 100 % 10),
    Nat.digitChar (n / 10 % 10), Nat.digitChar (n % 10)]

/-- `Date.prototype.toISOString` for in-range dates:
`YYYY-MM-DDTHH:MM:SS.mmmZ`. -/
def JsDate.toISOString (d : JsDate) : String :=
  pad4 d.year ++ "-" ++ pad2 d.month ++ "-" ++ pad2 d.day ++ "T"
    ++ pad2 d.hour ++ ":" ++ pad2 d.minute ++ ":" ++ pad2 d.second ++ "."
    ++ pad3 d.millis ++ "Z"

/-- `.replace(/[:.]/g, "-")` applied to the ISO string (lambda.js
line 141): every colon and dot becomes a dash. -/
def sanitizeStamp (s : String) : String :=
  s.map fun c => if c = ':' ∨ c = '.' then '-' else c

/-- Which S3 command a presigned URL is generated over.  The source presigns
a `PutObjectCommand` (lambda.js line 173); a retrieval URL would presign a
`GetObjectCommand`. -/
inductive S3Op where
  | put
  | get
deriving DecidableEq

/-- The `Metadata` tags of the S3 upload (lambda.js lines 159-165). -/
structure S3Metadata where
  knowledgeBaseId : String
  modelId : String
  sessionId : String
  searchType : String
  timestamp : String
deriving DecidableEq

/-- The `PutObjectCommand` parameters (lambda.js lines 154-166). -/
structure UploadParams where
  bucket : String
  key : String
  body : String
  contentType : String
  metadata : S3Metadata
deriving DecidableEq

/-- The `metadata` object of the returned result (lambda.js lines 190-196). -/
structure TestMetadata where
  jiraTicketId : String
  commitSha : Option String
  repositoryUrl : Option String
  prNumber : Option String
  branch : Option String
deriving DecidableEq

/-- The object returned by `queryKnowledgeBase` on success (lambda.js
lines 184-197). -/
structure QkbResult where
  appPackage : String
  testName : String
  testInstructionsUrl : String
  priority : String
  timeout : Nat
  metadata : TestMetadata
deriving DecidableEq

/-- One observable side effect of an invocation, in program order. -/
inductive Effect where
  | genCall (payload : GenPayload)
  | writeFile (path : String) (content : String)
  | readFile (path : String)
  | s3Upload (params : UploadParams)
  | presign (op : S3Op) (bucket : String) (key : String) (expiresIn : Nat)
  | unlink (path : String)
deriving DecidableEq

/-- The outcomes the external world supplies to one invocation: the Bedrock
call, the S3 upload, the presigner, and the two `new Date()` reads (one at
lambda.js line 141, one in the handler catch block at line 258).  A thrown
JavaScript error is modelled by `Except.error` carrying `error.message`. -/
structure Env where
  genResult : Except String ApiResponse
  uploadResult : Except String Unit
  presignResult : Except String String
  qkbNow : JsDate
  errNow : JsDate

/-- The sanitized timestamp built at lambda.js line 141. -/
def timestampOf (e : Env) : String := sanitizeStamp e.qkbNow.toISOString

/-- `testcases-${pr_number}-${timestamp}.txt` (lambda.js line 142). -/
def fileNameOf (pr : Option String) (ts : String) : String :=
  "testcases-" ++ jstr pr ++ "-" ++ ts ++ ".txt"

/-- `/tmp/${fileName}` (lambda.js line 143). -/
def filePathOf (pr : Option String) (ts : String) : String :=
  "/tmp/" ++ fileNameOf pr ts

/-- `${s3Prefix}/${fileName}` where `s3Prefix = repository` (lambda.js
lines 37 and 153). -/
def s3KeyOf (repo : Option String) (pr : Option String) (ts : String) : String :=
  jstr repo ++ "/" ++ fileNameOf pr ts

/-- The `uploadParams` object (lambda.js lines 154-166); the `Body` is the
readback of the file just written, i.e. the generated text. -/
def uploadParamsOf (p : Params) (r : ApiResponse) (ts : String) : UploadParams where
  bucket := S3_BUCKET_NAME
  key := s3KeyOf p.repository p.pr_number ts
  body := r.outputText
  contentType := "text/plain"
  metadata :=
    { knowledgeBaseId := p.knowledgeBaseId
      modelId := p.modelId
      sessionId := jsOr r.sessionId "none"
      searchType := p.searchType
      timestamp := ts }

/-- The result object of lambda.js lines 184-197. -/
def resultOf (p : Params) (url : String) : QkbResult where
  appPackage := "com.qazi9amaan.rntodoapp"
  testName := "Test for PR " ++ jstr p.pr_number
  testInstructionsUrl := url
  priority := "high"
  timeout := 180
  metadata :=
    { jiraTicketId := "PROJ-1234"
      commitSha := p.commitSha
      repositoryUrl := p.repositoryUrl
      prNumber := p.pr_number
      branch := p.branch }

/-- The effects performed between a successful generation call and the upload
attempt: local write then readback (lambda.js lines 149 and 157). -/
def preUploadTrace (p : Params) (r : ApiResponse) (ts : String) : List Effect :=
  [Effect.genCall (buildPayload p),
   Effect.writeFile (filePathOf p.pr_number ts) r.outputText,
   Effect.readFile (filePathOf p.pr_number ts)]

/-- `queryKnowledgeBase` (lambda.js lines 16-202).  Returns the rethrown
error or the result, together with the trace of effects performed.  The
`try/catch` at lines 131-201 rethrows the caught error unchanged, so the
error simply propagates. -/
def queryKnowledgeBase (e : Env) (requestData : RequestData) :
    Except String QkbResult × List Effect :=
  let p := extractParams requestData
  match e.genResult with
  | Except.error m => (Except.error m, [Effect.genCall (buildPayload p)])
  | Except.ok r =>
    let ts := timestampOf e
    let key := s3KeyOf p.repository p.pr_number ts
    let up := uploadParamsOf p r ts
    match e.uploadResult with
    | Except.error m =>
      (Except.error m, preUploadTrace p r ts ++ [Effect.s3Upload up])
    | Except.ok _ =>
      match e.presignResult with
      | Except.error m =>
        (Except.error m,
         preUploadTrace p r ts
           ++ [Effect.s3Upload up,
               Effect.presign S3Op.put S3_BUCKET_NAME key 86400])
      | Except.ok url =>
        (Except.ok (resultOf p url),
         preUploadTrace p r ts
           ++ [Effect.s3Upload up,
               Effect.presign S3Op.put S3_BUCKET_NAME key 86400,
               Effect.unlink (filePathOf p.pr_number ts)])

/-- A body as stringified JSON of a record with an `error` and a `details`
field (the 400 body, lambda.js lines 227-231). -/
structure ClientErrBody where
  error : String
  details : String
deriving DecidableEq

/-- A body as stringified JSON of a record with `error`, `details` and
`timestamp` fields (the 500 body, lambda.js lines 255-259). -/
structure ServerErrBody where
  error : String
  details : String
  timestamp : String
deriving DecidableEq

/-- The handler's response body: either `JSON.stringify` of an error record
(modelled structurally, tagged by the constructor), or the raw result object
passed through un-stringified (lambda.js line 245). -/
inductive RespBody where
  | jsonClientErr (b : ClientErrBody)
  | jsonServerErr (b : ServerErrBody)
  | raw (r : QkbResult)
deriving DecidableEq

/-- A response as returned by the handler: status code, headers as the
literal key-value list of the source object, and a body. -/
structure Response where
  statusCode : Nat
  headers : List (String × String)
  body : RespBody
deriving DecidableEq

/-- The four headers of the 200 and 400 responses (lambda.js lines 221-226
and 239-244). -/
def corsHeadersFull : List (String × String) :=
  [("Content-Type", "application/json"),
   ("Access-Control-Allow-Origin", "*"),
   ("Access-Control-Allow-Headers", "Content-Type"),
   ("Access-Control-Allow-Methods", "POST, OPTIONS")]

/-- The two headers of the 500 response (lambda.js lines 251-254). -/
def corsHeadersErr : List (String × String) :=
  [("Content-Type", "application/json"),
   ("Access-Control-Allow-Origin", "*")]

/-- The 400 response (lambda.js lines 219-231). -/
def badRequestResponse (parseMsg : String) : Response where
  statusCode := 400
  headers := corsHeadersFull
  body := RespBody.jsonClientErr
    { error := "Invalid JSON in request body", details := parseMsg }

/-- The 500 response of the handler catch block (lambda.js lines 249-260). -/
def serverErrorResponse (msg : String) (now : JsDate) : Response where
  statusCode := 500
  headers := corsHeadersErr
  body := RespBody.jsonServerErr
    { error := "Failed to query knowledge base"
      details := msg
      timestamp := now.toISOString }

/-- The 200 response (lambda.js lines 237-246): the raw result object is
placed in `body` without `JSON.stringify`. -/
def okResponse (r : QkbResult) : Response where
  statusCode := 200
  headers := corsHeadersFull
  body := RespBody.raw r

/-- Run `queryKnowledgeBase` and shape the outcome: the 200 response on
success, or the catch-block 500 response on a thrown error (lambda.js
lines 235-261). -/
def runRequest (e : Env) (requestData : RequestData) : Response × List Effect :=
  match queryKnowledgeBase e requestData with
  | (Except.ok result, tr) => (okResponse result, tr)
  | (Except.error m, tr) => (serverErrorResponse m e.errNow, tr)

/-- The inbound `event.body`: absent, a raw string, or a pre-decoded
mapping. -/
inductive EventBody where
  | str (s : String)
  | obj (r : RequestData)
deriving DecidableEq

/-- The inbound event. -/
structure Event where
  body : Option EventBody
deriving DecidableEq

/-- `exports.handler` (lambda.js lines 204-262).  `jsonParse` models the
platform `JSON.parse` builtin; a thrown `SyntaxError` is `Except.error`
carrying its message.  The guard `if (event.body)` is JavaScript truthiness:
an absent body and the empty string are falsy, every object is truthy, so an
empty-string body skips parsing and proceeds with the empty record. -/
def handler (jsonParse : String → Except String RequestData) (e : Env)
    (event : Event) : Response × List Effect :=
  match event.body with
  | none => runRequest e {}
  | some (EventBody.obj r) => runRequest e r
  | some (EventBody.str s) =>
    if s = "" then runRequest e {}
    else
      match jsonParse s with
      | Except.error m => (badRequestResponse m, [])
      | Except.ok requestData => runRequest e requestData

/-- The event-body decoding performed by the front half of the handler:
which request record reaches `queryKnowledgeBase`, or the parse error that
stops the invocation. -/
def decodeBody (jsonParse : String → Except String RequestData) :
    Option EventBody → Except String RequestData
  | none => Except.ok {}
  | some (EventBody.obj r) => Except.ok r
  | some (EventBody.str s) =>
    if s = "" then Except.ok {} else jsonParse s

/-- Predicate: the effect is the Bedrock generation call. -/
def isGenCall : Effect → Bool
  | Effect.genCall _ => true
  | _ => false

/-- Predicate: the effect is the S3 upload. -/
def isUpload : Effect → Bool
  | Effect.s3Upload _ => true
  | _ => false

/-- Predicate: the effect is the local-file deletion. -/
def isUnlink : Effect → Bool
  | Effect.unlink _ => true
  | _ => false

/-- The upload parameters of all S3 uploads in a trace. -/
def uploadsOf (tr : List Effect) : List UploadParams :=
  tr.filterMap fun eff =>
    match eff with
    | Effect.s3Upload u => some u
    | _ => none

/-- All presign effects in a trace, as (operation, bucket, key, expiry). -/
def presignsOf (tr : List Effect) : List (S3Op × String × String × Nat) :=
  tr.filterMap fun eff =>
    match eff with
    | Effect.presign op b k ex => some (op, b, k, ex)
    | _ => none

/-- The set of local files existing after a trace, starting from none:
writes create, unlinks delete. -/
def localFilesAfter (tr : List Effect) : List String :=
  tr.foldl
    (fun fs eff =>
      match eff with
      | Effect.writeFile p _ => if p ∈ fs then fs else fs ++ [p]
      | Effect.unlink p => fs.erase p
      | _ => fs)
    []

/-- The handler is the event-body decoding followed by `runRequest`; a parse
error short-circuits to the 400 response with an empty trace. -/
theorem handler_decode (jsonParse : String → Except String RequestData)
    (e : Env) (ev : Event) :
    handler jsonParse e ev =
      match decodeBody jsonParse ev.body with
      | Except.error m => (badRequestResponse m, [])
      | Except.ok requestData => runRequest e requestData := by
  obtain ⟨b⟩ := ev
  match b with
  | none => rfl
  | some (EventBody.obj r) => rfl
  | some (EventBody.str s) =>
    by_cases hs : s = "" <;> simp [handler, decodeBody, hs]

theorem pad2_length (n : Nat) : (pad2 n).length = 2 := rfl

theorem pad3_length (n : Nat) : (pad3 n).length = 3 := rfl

theorem pad4_length (n : Nat) : (pad4 n).length = 4 := rfl

/-- The rendered ISO timestamp always has the 24-character
`YYYY-MM-DDTHH:MM:SS.mmmZ` shape. -/
theorem toISOString_length (d : JsDate) : d.toISOString.length = 24 := by
  simp only [JsDate.toISOString, String.length_append, pad2_length,
    pad3_length, pad4_length]
  decide

/-- Middle-segment injectivity of string concatenation. -/
theorem string_append_inj_mid (a b c d : String)
    (h : a ++ b ++ c = a ++ d ++ c) : b = d := by
  have h2 : a.data ++ b.data ++ c.data = a.data ++ d.data ++ c.data := by
    have := congrArg String.data h
    simpa [String.data_append] using this
  exact String.ext (List.append_cancel_left (List.append_cancel_right h2))

/-- For a fixed repository and PR number, the S3 key determines the
timestamp: distinct timestamps give distinct keys. -/
theorem s3KeyOf_ts_inj (repo pr : Option String) (t1 t2 : String)
    (h : s3KeyOf repo pr t1 = s3KeyOf repo pr t2) : t1 = t2 := by
  apply string_append_inj_mid
    (jstr repo ++ "/" ++ ("testcases-" ++ jstr pr ++ "-")) t1 ".txt" t2
  have h1 : jstr repo ++ "/" ++ ("testcases-" ++ jstr pr ++ "-") ++ t1
      ++ ".txt" = s3KeyOf repo pr t1 := by
    simp [s3KeyOf, fileNameOf, String.append_assoc]
  have h2 : jstr repo ++ "/" ++ ("testcases-" ++ jstr pr ++ "-") ++ t2
      ++ ".txt" = s3KeyOf repo pr t2 := by
    simp [s3KeyOf, fileNameOf, String.append_assoc]
  rw [h1, h2, h]

/-! Concrete inputs used to evaluate the embedding on closed instances. -/

/-- A concrete clock reading. -/
def date0 : JsDate := ⟨2024, 1, 2, 3, 4, 5, 6⟩

/-- A concrete successful Bedrock response. -/
def apiResp0 : ApiResponse := ⟨"hello", none⟩

/-- An environment in which every external call succeeds. -/
def envOk : Env where
  genResult := Except.ok apiResp0
  uploadResult := Except.ok ()
  presignResult := Except.ok "https://example.com/signed"
  qkbNow := date0
  errNow := date0

/-- An environment in which the Bedrock call throws with message "boom". -/
def envGenFail : Env where
  genResult := Except.error "boom"
  uploadResult := Except.ok ()
  presignResult := Except.ok "https://example.com/signed"
  qkbNow := date0
  errNow := date0

/-- An environment in which the S3 upload throws with message "boom". -/
def envUploadFail : Env where
  genResult := Except.ok apiResp0
  uploadResult := Except.error "boom"
  presignResult := Except.ok "https://example.com/signed"
  qkbNow := date0
  errNow := date0

/-- An environment in which the presigner throws with message "sign-fail". -/
def envPresignFail : Env where
  genResult := Except.ok apiResp0
  uploadResult := Except.ok ()
  presignResult := Except.error "sign-fail"
  qkbNow := date0
  errNow := date0

/-- A concrete model of `JSON.parse`, consistent with ECMA-262 where the
evaluations below exercise it: the empty string is not valid JSON
(`JSON.parse("")` throws `"Unexpected end of JSON input"`); other inputs
decode to the empty record. -/
def jsonParse0 : String → Except String RequestData := fun s =>
  if s = "" then Except.error "Unexpected end of JSON input"
  else Except.ok {}

/-- A concrete model of `JSON.parse` on a malformed nonempty body: every
input throws a syntax-error message. -/
def jsonParseReject : String → Except String RequestData :=
  fun _ => Except.error "Unexpected token o in JSON at position 1"

/-! Claims. -/

/-- Claim C1, counterexample: the claim quantifies over every event whose
body is a string that is not valid JSON.  The empty string is such a string
(`JSON.parse("")` throws), but the guard `if (event.body)` treats the empty
string as falsy, so the handler skips parsing, proceeds with the empty
record, attempts the remote generation call and returns 200 — not 400. -/
theorem C1_counterexample :
    jsonParse0 "" = Except.error "Unexpected end of JSON input"
    ∧ (handler jsonParse0 envOk (Event.mk (some (EventBody.str "")))).1.statusCode
        = 200
    ∧ (handler jsonParse0 envOk (Event.mk (some (EventBody.str "")))).2.any
        isGenCall = true :=
  ⟨rfl, rfl, rfl⟩

/-- Claim C1 (amended): for every inbound event whose body is a NONEMPTY
string that is not valid JSON, the handler returns status 400 with the
`error` field and the `details` field carrying the parse error message, and
performs no effect at all — in particular neither the remote generation
call nor the upload call. -/
theorem C1_invalid_json_400 (jsonParse : String → Except String RequestData)
    (e : Env) (s m : String) (hne : s ≠ "")
    (hp : jsonParse s = Except.error m) :
    handler jsonParse e (Event.mk (some (EventBody.str s)))
      = (badRequestResponse m, [])
    ∧ (badRequestResponse m).statusCode = 400
    ∧ (badRequestResponse m).body
        = RespBody.jsonClientErr ⟨"Invalid JSON in request body", m⟩ := by
  refine ⟨?_, rfl, rfl⟩
  simp [handler, hne, hp]

/-- Claim C1 witness: concrete nonempty malformed body. -/
theorem C1_invalid_json_400_witness :
    handler jsonParseReject envOk (Event.mk (some (EventBody.str "not json")))
      = (badRequestResponse "Unexpected token o in JSON at position 1", []) :=
  (C1_invalid_json_400 jsonParseReject envOk "not json"
    "Unexpected token o in JSON at position 1" (by decide) rfl).1

/-- Claim C2: any error thrown by the generation call or by the upload call
reaches the caller as the same 500 response whose stringified body is
`{error, details, timestamp}` with `details` the thrown message verbatim —
generation and storage failures are shaped identically — and no retry is
made (at most one generation call and at most one upload per invocation). -/
theorem C2_server_error_shaping
    (jsonParse : String → Except String RequestData) (e e' : Env)
    (ev : Event) (m : String) (r : ApiResponse)
    (hg : e.genResult = Except.error m)
    (hg' : e'.genResult = Except.ok r)
    (hu' : e'.uploadResult = Except.error m)
    (ht : e'.errNow = e.errNow)
    (hreach : (handler jsonParse e ev).2.any isGenCall = true) :
    (handler jsonParse e ev).1 = serverErrorResponse m e.errNow
    ∧ (handler jsonParse e' ev).1 = serverErrorResponse m e.errNow
    ∧ (serverErrorResponse m e.errNow).statusCode = 500
    ∧ (serverErrorResponse m e.errNow).body = RespBody.jsonServerErr
        ⟨"Failed to query knowledge base", m, e.errNow.toISOString⟩
    ∧ (handler jsonParse e ev).2.countP isGenCall ≤ 1
    ∧ (handler jsonParse e ev).2.countP isUpload ≤ 1
    ∧ (handler jsonParse e' ev).2.countP isGenCall ≤ 1
    ∧ (handler jsonParse e' ev).2.countP isUpload ≤ 1 := by
  have h1 := handler_decode jsonParse e ev
  have h2 := handler_decode jsonParse e' ev
  cases hdec : decodeBody jsonParse ev.body with
  | error pm =>
    rw [h1, hdec] at hreach
    simp at hreach
  | ok rd =>
    rw [hdec] at h1 h2
    rw [h1, h2]
    refine ⟨?_, ?_, rfl, rfl, ?_, ?_, ?_, ?_⟩ <;>
      simp [runRequest, queryKnowledgeBase, hg, hg', hu', ht, preUploadTrace,
        List.countP_cons, List.countP_nil, List.countP_append,
        isGenCall, isUpload]

/-- Claim C2 witness: generation failure and upload failure with the same
message produce the same 500 response. -/
theorem C2_server_error_shaping_witness :
    (handler jsonParse0 envGenFail (Event.mk none)).1
      = serverErrorResponse "boom" date0
    ∧ (handler jsonParse0 envUploadFail (Event.mk none)).1
      = serverErrorResponse "boom" date0 :=
  ⟨(C2_server_error_shaping jsonParse0 envGenFail envUploadFail
      (Event.mk none) "boom" apiResp0 rfl rfl rfl rfl rfl).1,
   (C2_server_error_shaping jsonParse0 envGenFail envUploadFail
      (Event.mk none) "boom" apiResp0 rfl rfl rfl rfl rfl).2.1⟩

/-- Claim C3: when generation, upload and link minting all succeed, the
handler returns status 200 with the full CORS header set and a body that is
the raw result object (not stringified): `appPackage` is the fixed package
string, `testName` is derived from the PR number, `testInstructionsUrl` is
the presigned link, `priority` is "high", `timeout` is 180, and `metadata`
carries the fixed `jiraTicketId` placeholder plus `commitSha`,
`repositoryUrl`, `prNumber` and `branch` echoed from the request. -/
theorem C3_success_shape (jsonParse : String → Except String RequestData)
    (e : Env) (ev : Event) (rd : RequestData) (r : ApiResponse) (url : String)
    (hdec : decodeBody jsonParse ev.body = Except.ok rd)
    (hg : e.genResult = Except.ok r)
    (hu : e.uploadResult = Except.ok ())
    (hp : e.presignResult = Except.ok url) :
    (handler jsonParse e ev).1 =
      { statusCode := 200
        headers := corsHeadersFull
        body := RespBody.raw
          { appPackage := "com.qazi9amaan.rntodoapp"
            testName := "Test for PR " ++ jstr rd.pr_number
            testInstructionsUrl := url
            priority := "high"
            timeout := 180
            metadata :=
              { jiraTicketId := "PROJ-1234"
                commitSha := rd.commitSha
                repositoryUrl := rd.repositoryUrl
                prNumber := rd.pr_number
                branch := rd.branch } } } := by
  rw [handler_decode, hdec]
  simp [runRequest, queryKnowledgeBase, hg, hu, hp, okResponse, resultOf,
    extractParams]

/-- Claim C3 witness: empty event, all calls succeed. -/
theorem C3_success_shape_witness :
    (handler jsonParse0 envOk (Event.mk none)).1 =
      { statusCode := 200
        headers := corsHeadersFull
        body := RespBody.raw
          { appPackage := "com.qazi9amaan.rntodoapp"
            testName := "Test for PR undefined"
            testInstructionsUrl := "https://example.com/signed"
            priority := "high"
            timeout := 180
            metadata :=
              { jiraTicketId := "PROJ-1234"
                commitSha := none
                repositoryUrl := none
                prNumber := none
                branch := none } } } :=
  C3_success_shape jsonParse0 envOk (Event.mk none) {} apiResp0
    "https://example.com/signed" rfl rfl rfl rfl

/-- Claim C4: a successful invocation performs exactly one upload; its key
is `{repository}/testcases-{pr_number}-{timestamp}.txt`, a deterministic
function of repository, PR number and the generated timestamp; a second
invocation with the same repository, PR number and clock reading uses the
same key, and, repository and PR number fixed, distinct timestamps give
distinct keys. -/
theorem C4_key_deterministic (jsonParse : String → Except String RequestData)
    (e e2 : Env) (ev ev2 : Event) (rd rd2 : RequestData)
    (r r2 : ApiResponse) (url url2 : String)
    (hdec : decodeBody jsonParse ev.body = Except.ok rd)
    (hg : e.genResult = Except.ok r)
    (hu : e.uploadResult = Except.ok ())
    (hp : e.presignResult = Except.ok url)
    (hdec2 : decodeBody jsonParse ev2.body = Except.ok rd2)
    (hg2 : e2.genResult = Except.ok r2)
    (hu2 : e2.uploadResult = Except.ok ())
    (hp2 : e2.presignResult = Except.ok url2)
    (hrepo : rd2.repository = rd.repository)
    (hpr : rd2.pr_number = rd.pr_number)
    (hclock : e2.qkbNow = e.qkbNow) :
    uploadsOf (handler jsonParse e ev).2
      = [uploadParamsOf (extractParams rd) r (timestampOf e)]
    ∧ (uploadParamsOf (extractParams rd) r (timestampOf e)).key
      = s3KeyOf rd.repository rd.pr_number (timestampOf e)
    ∧ uploadsOf (handler jsonParse e2 ev2).2
      = [uploadParamsOf (extractParams rd2) r2 (timestampOf e2)]
    ∧ (uploadParamsOf (extractParams rd2) r2 (timestampOf e2)).key
      = s3KeyOf rd.repository rd.pr_number (timestampOf e)
    ∧ (∀ t1 t2 : String, t1 ≠ t2 →
        s3KeyOf rd.repository rd.pr_number t1
          ≠ s3KeyOf rd.repository rd.pr_number t2) := by
  refine ⟨?_, rfl, ?_, ?_, ?_⟩
  · rw [handler_decode, hdec]
    simp [runRequest, queryKnowledgeBase, hg, hu, hp, uploadsOf,
      preUploadTrace]
  · rw [handler_decode, hdec2]
    simp [runRequest, queryKnowledgeBase, hg2, hu2, hp2, uploadsOf,
      preUploadTrace]
  · simp [uploadParamsOf, extractParams, timestampOf, hrepo, hpr, hclock]
  · intro t1 t2 hne he
    exact hne (s3KeyOf_ts_inj rd.repository rd.pr_number t1 t2 he)

/-- Claim C4 witness: two invocations with the same request and clock. -/
theorem C4_key_deterministic_witness :
    uploadsOf (handler jsonParse0 envOk (Event.mk none)).2
      = [uploadParamsOf (extractParams {}) apiResp0 (timestampOf envOk)]
    ∧ (uploadParamsOf (extractParams {}) apiResp0 (timestampOf envOk)).key
      = s3KeyOf none none (timestampOf envOk) :=
  ⟨(C4_key_deterministic jsonParse0 envOk envOk (Event.mk none)
      (Event.mk none) {} {} apiResp0 apiResp0 "https://example.com/signed"
      "https://example.com/signed" rfl rfl rfl rfl rfl rfl rfl rfl rfl rfl
      rfl).1,
   (C4_key_deterministic jsonParse0 envOk envOk (Event.mk none)
      (Event.mk none) {} {} apiResp0 apiResp0 "https://example.com/signed"
      "https://example.com/signed" rfl rfl rfl rfl rfl rfl rfl rfl rfl rfl
      rfl).2.1⟩

/-- Claim C5 (code bug, evaluated at the failing input): on a successful
invocation the single presigned URL minted is bound to exactly the uploaded
object's key with an expiry of 86400 seconds (24 hours) and is returned as
`testInstructionsUrl` — but it is signed over a `PutObjectCommand`, i.e. an
upload (write) operation, whereas the claim's (and the code comment's
"pre-signed URL for the uploaded file") intent is a retrieval URL granting
read access, which would presign a `GetObjectCommand`. -/
theorem C5_presign_put_not_get :
    presignsOf (handler jsonParse0 envOk (Event.mk none)).2
      = [(S3Op.put, S3_BUCKET_NAME,
          (uploadParamsOf (extractParams {}) apiResp0 (timestampOf envOk)).key,
          86400)]
    ∧ S3Op.put ≠ S3Op.get
    ∧ (handler jsonParse0 envOk (Event.mk none)).1.body
      = RespBody.raw
          (resultOf (extractParams {}) "https://example.com/signed") :=
  ⟨rfl, by decide, rfl⟩

/-- Claim C6: the upload is attempted only after the generation call has
completed successfully — an upload effect in the trace implies the
generation call returned a response — and when the generation call throws,
no upload is attempted and the handler returns status 500 whose `details`
is the thrown message verbatim with a well-formed (24-character ISO)
timestamp. -/
theorem C6_upload_after_generation
    (jsonParse : String → Except String RequestData) (e : Env) (ev : Event)
    (m : String) :
    ((handler jsonParse e ev).2.any isUpload = true →
      ∃ r, e.genResult = Except.ok r)
    ∧ (e.genResult = Except.error m →
        (handler jsonParse e ev).2.any isGenCall = true →
        (handler jsonParse e ev).2.any isUpload = false
        ∧ (handler jsonParse e ev).1 = serverErrorResponse m e.errNow
        ∧ (serverErrorResponse m e.errNow).statusCode = 500
        ∧ (serverErrorResponse m e.errNow).body = RespBody.jsonServerErr
            ⟨"Failed to query knowledge base", m, e.errNow.toISOString⟩
        ∧ e.errNow.toISOString.length = 24) := by
  rw [handler_decode]
  cases hdec : decodeBody jsonParse ev.body with
  | error pm =>
    exact ⟨fun h => by simp at h, fun _ h => by simp at h⟩
  | ok rd =>
    constructor
    · intro h
      cases hg : e.genResult with
      | ok r => exact ⟨r, rfl⟩
      | error m' =>
        rw [show (match Except.ok rd with
            | Except.error m => (badRequestResponse m, ([] : List Effect))
            | Except.ok requestData => runRequest e requestData)
            = runRequest e rd from rfl] at h
        simp [runRequest, queryKnowledgeBase, hg, isUpload, isGenCall] at h
    · intro hg _
      refine ⟨?_, ?_, rfl, rfl, toISOString_length e.errNow⟩ <;>
        simp [runRequest, queryKnowledgeBase, hg, isUpload]

/-- Claim C6 witness: the generation call throws with message "boom". -/
theorem C6_upload_after_generation_witness :
    (handler jsonParse0 envGenFail (Event.mk none)).2.any isUpload = false
    ∧ (handler jsonParse0 envGenFail (Event.mk none)).1
      = serverErrorResponse "boom" date0
    ∧ (serverErrorResponse "boom" date0).statusCode = 500
    ∧ (serverErrorResponse "boom" date0).body = RespBody.jsonServerErr
        ⟨"Failed to query knowledge base", "boom", date0.toISOString⟩
    ∧ date0.toISOString.length = 24 :=
  (C6_upload_after_generation jsonParse0 envGenFail (Event.mk none)
    "boom").2 rfl rfl

/-- Claim C7: the local temporary file is deleted only after both the
upload and the link minting succeed.  On the all-success path the trace is
exactly generation call, local write, readback, upload, presign, unlink —
the unlink is the last effect and the local file is gone afterwards.  If
the upload throws, or the upload succeeds but the presigner throws, no
unlink is performed and the local file remains. -/
theorem C7_cleanup_only_on_success
    (jsonParse : String → Except String RequestData) (ev : Event)
    (rd : RequestData) (e1 e2 e3 : Env) (r : ApiResponse)
    (url m m' : String)
    (hdec : decodeBody jsonParse ev.body = Except.ok rd) :
    (e1.genResult = Except.ok r → e1.uploadResult = Except.ok () →
      e1.presignResult = Except.ok url →
      (handler jsonParse e1 ev).2
        = preUploadTrace (extractParams rd) r (timestampOf e1)
          ++ [Effect.s3Upload
                (uploadParamsOf (extractParams rd) r (timestampOf e1)),
              Effect.presign S3Op.put S3_BUCKET_NAME
                (s3KeyOf rd.repository rd.pr_number (timestampOf e1)) 86400,
              Effect.unlink (filePathOf rd.pr_number (timestampOf e1))]
      ∧ (handler jsonParse e1 ev).2.getLast?
        = some (Effect.unlink (filePathOf rd.pr_number (timestampOf e1)))
      ∧ localFilesAfter (handler jsonParse e1 ev).2 = [])
    ∧ (e2.genResult = Except.ok r → e2.uploadResult = Except.error m →
      (handler jsonParse e2 ev).2.any isUnlink = false
      ∧ filePathOf rd.pr_number (timestampOf e2)
          ∈ localFilesAfter (handler jsonParse e2 ev).2)
    ∧ (e3.genResult = Except.ok r → e3.uploadResult = Except.ok () →
      e3.presignResult = Except.error m' →
      (handler jsonParse e3 ev).2.any isUnlink = false
      ∧ filePathOf rd.pr_number (timestampOf e3)
          ∈ localFilesAfter (handler jsonParse e3 ev).2) := by
  refine ⟨fun hg hu hp => ?_, fun hg hu => ?_, fun hg hu hp => ?_⟩
  · have htr : (handler jsonParse e1 ev).2
        = preUploadTrace (extractParams rd) r (timestampOf e1)
          ++ [Effect.s3Upload
                (uploadParamsOf (extractParams rd) r (timestampOf e1)),
              Effect.presign S3Op.put S3_BUCKET_NAME
                (s3KeyOf rd.repository rd.pr_number (timestampOf e1)) 86400,
              Effect.unlink (filePathOf rd.pr_number (timestampOf e1))] := by
      rw [handler_decode, hdec]
      simp [runRequest, queryKnowledgeBase, hg, hu, hp, uploadParamsOf,
        s3KeyOf, filePathOf, extractParams]
    refine ⟨htr, ?_, ?_⟩
    · rw [htr]; rfl
    · rw [htr]
      simp [preUploadTrace, localFilesAfter, filePathOf, extractParams]
  · have htr : (handler jsonParse e2 ev).2
        = preUploadTrace (extractParams rd) r (timestampOf e2)
          ++ [Effect.s3Upload
                (uploadParamsOf (extractParams rd) r (timestampOf e2))] := by
      rw [handler_decode, hdec]
      simp [runRequest, queryKnowledgeBase, hg, hu]
    rw [htr]
    constructor
    · simp [preUploadTrace, isUnlink]
    · simp [preUploadTrace, localFilesAfter, filePathOf, extractParams]
  · have htr : (handler jsonParse e3 ev).2
        = preUploadTrace (extractParams rd) r (timestampOf e3)
          ++ [Effect.s3Upload
                (uploadParamsOf (extractParams rd) r (timestampOf e3)),
              Effect.presign S3Op.put S3_BUCKET_NAME
                (s3KeyOf rd.repository rd.pr_number (timestampOf e3))
                86400] := by
      rw [handler_decode, hdec]
      simp [runRequest, queryKnowledgeBase, hg, hu, hp, s3KeyOf,
        extractParams]
    rw [htr]
    constructor
    · simp [preUploadTrace, isUnlink]
    · simp [preUploadTrace, localFilesAfter, filePathOf, extractParams]

/-- Claim C7 witness: the three outcomes at a concrete request. -/
theorem C7_cleanup_only_on_success_witness :
    ((handler jsonParse0 envOk (Event.mk none)).2.getLast?
      = some (Effect.unlink (filePathOf none (timestampOf envOk)))
     ∧ localFilesAfter (handler jsonParse0 envOk (Event.mk none)).2 = [])
    ∧ ((handler jsonParse0 envUploadFail (Event.mk none)).2.any isUnlink
        = false
      ∧ filePathOf none (timestampOf envUploadFail)
          ∈ localFilesAfter (handler jsonParse0 envUploadFail
              (Event.mk none)).2)
    ∧ ((handler jsonParse0 envPresignFail (Event.mk none)).2.any isUnlink
        = false
      ∧ filePathOf none (timestampOf envPresignFail)
          ∈ localFilesAfter (handler jsonParse0 envPresignFail
              (Event.mk none)).2) := by
  have h := C7_cleanup_only_on_success jsonParse0 (Event.mk none) {}
    envOk envUploadFail envPresignFail apiResp0 "https://example.com/signed"
    "boom" "sign-fail" rfl
  exact ⟨⟨(h.1 rfl rfl rfl).2.1, (h.1 rfl rfl rfl).2.2⟩,
    h.2.1 rfl rfl, h.2.2 rfl rfl rfl⟩

/-- Claim C8: an event with no body is not rejected: the destructuring of
the empty record yields exactly the default parameter values
(knowledgeBaseId, modelId, numberOfResults 5, searchType "HYBRID",
maxTokens 1000, temperature 0.7, topP 0.9, includeMetadata true), the
remote generation call is attempted, and with successful external calls
the handler returns 200 — missing repository, pr_number and diff do not
make it fail. -/
theorem C8_empty_event_defaults
    (jsonParse : String → Except String RequestData) (e : Env)
    (r : ApiResponse) (url : String)
    (hg : e.genResult = Except.ok r)
    (hu : e.uploadResult = Except.ok ())
    (hp : e.presignResult = Except.ok url) :
    extractParams {} =
      { repository := none
        pr_number := none
        repositoryUrl := none
        commitSha := none
        diff := none
        branch := none
        pr_description := none
        knowledgeBaseId := KNOWLEDGE_BASE_ID
        modelId := MODEL_ID
        numberOfResults := 5
        searchType := "HYBRID"
        maxTokens := 1000
        temperature := 7 / 10
        topP := 9 / 10
        includeMetadata := true }
    ∧ (handler jsonParse e (Event.mk none)).2.head?
      = some (Effect.genCall (buildPayload (extractParams {})))
    ∧ (handler jsonParse e (Event.mk none)).1.statusCode = 200 := by
  refine ⟨rfl, ?_, ?_⟩ <;>
    simp [handler, runRequest, queryKnowledgeBase, hg, hu, hp,
      preUploadTrace, okResponse]

/-- Claim C8 witness: empty event in the all-success environment. -/
theorem C8_empty_event_defaults_witness :
    (handler jsonParse0 envOk (Event.mk none)).2.head?
      = some (Effect.genCall (buildPayload (extractParams {})))
    ∧ (handler jsonParse0 envOk (Event.mk none)).1.statusCode = 200 :=
  ⟨(C8_empty_event_defaults jsonParse0 envOk apiResp0
      "https://example.com/signed" rfl rfl rfl).2.1,
   (C8_empty_event_defaults jsonParse0 envOk apiResp0
      "https://example.com/signed" rfl rfl rfl).2.2⟩

/-- A request that overrides only the knowledge-base id with "KB-A". -/
def rdKbA : RequestData := { knowledgeBaseId := some "KB-A" }

/-- A request that overrides only the knowledge-base id with "KB-B". -/
def rdKbB : RequestData := { knowledgeBaseId := some "KB-B" }

/-- Claim C9, counterexample: the artifact content is NOT "the generation
response serialized together with metadata" — `fileContent = generatedText`
(lambda.js line 146) carries no metadata at all.  Two concrete invocations
whose metadata differ (knowledge-base id "KB-A" vs "KB-B", visible in the
uploaded object's tags) produce the identical file content and identical
uploaded bytes `"hello"`, so no serialization of the metadata is present in
the artifact. -/
theorem C9_counterexample :
    ((handler jsonParse0 envOk
        (Event.mk (some (EventBody.obj rdKbA)))).2.filterMap
      (fun eff => match eff with
        | Effect.writeFile _ content => some content
        | _ => none)) = ["hello"]
    ∧ (uploadsOf (handler jsonParse0 envOk
        (Event.mk (some (EventBody.obj rdKbA)))).2).map UploadParams.body
      = ["hello"]
    ∧ (uploadsOf (handler jsonParse0 envOk
        (Event.mk (some (EventBody.obj rdKbB)))).2).map UploadParams.body
      = ["hello"]
    ∧ (uploadsOf (handler jsonParse0 envOk
        (Event.mk (some (EventBody.obj rdKbA)))).2).map UploadParams.metadata
      ≠ (uploadsOf (handler jsonParse0 envOk
        (Event.mk (some (EventBody.obj rdKbB)))).2).map
          UploadParams.metadata := by
  refine ⟨rfl, rfl, rfl, ?_⟩
  decide

/-- Claim C9 (amended): the artifact written to the temporary file and
uploaded is exactly the generated response text — no metadata is serialized
into the content — while the uploaded object carries the descriptive tags
(knowledge-base id, model id, session id, search type, timestamp) as object
metadata. -/
theorem C9_artifact_content_and_tags
    (jsonParse : String → Except String RequestData) (e : Env) (ev : Event)
    (rd : RequestData) (r : ApiResponse) (url : String)
    (hdec : decodeBody jsonParse ev.body = Except.ok rd)
    (hg : e.genResult = Except.ok r)
    (hu : e.uploadResult = Except.ok ())
    (hp : e.presignResult = Except.ok url) :
    (handler jsonParse e ev).2.get? 1
      = some (Effect.writeFile (filePathOf rd.pr_number (timestampOf e))
          r.outputText)
    ∧ uploadsOf (handler jsonParse e ev).2
      = [uploadParamsOf (extractParams rd) r (timestampOf e)]
    ∧ (uploadParamsOf (extractParams rd) r (timestampOf e)).body
      = r.outputText
    ∧ (uploadParamsOf (extractParams rd) r (timestampOf e)).metadata
      = { knowledgeBaseId := (extractParams rd).knowledgeBaseId
          modelId := (extractParams rd).modelId
          sessionId := jsOr r.sessionId "none"
          searchType := (extractParams rd).searchType
          timestamp := timestampOf e } := by
  refine ⟨?_, ?_, rfl, rfl⟩ <;>
    rw [handler_decode, hdec] <;>
    simp [runRequest, queryKnowledgeBase, hg, hu, hp, preUploadTrace,
      uploadsOf, filePathOf, extractParams]

/-- Claim C9 witness: concrete all-success invocation. -/
theorem C9_artifact_content_and_tags_witness :
    (handler jsonParse0 envOk (Event.mk none)).2.get? 1
      = some (Effect.writeFile (filePathOf none (timestampOf envOk)) "hello")
    ∧ (uploadParamsOf (extractParams {}) apiResp0 (timestampOf envOk)).body
      = "hello" :=
  ⟨(C9_artifact_content_and_tags jsonParse0 envOk (Event.mk none) {}
      apiResp0 "https://example.com/signed" rfl rfl rfl rfl).1,
   (C9_artifact_content_and_tags jsonParse0 envOk (Event.mk none) {}
      apiResp0 "https://example.com/signed" rfl rfl rfl rfl).2.2.1⟩

/-- Claim C10: for every event and every outcome of the external calls the
handler returns a response whose status code is 200, 400 or 500 — the
top-level try/catch turns every thrown error into the 500 response, so the
handler itself never propagates an exception. -/
theorem C10_total_status (jsonParse : String → Except String RequestData)
    (e : Env) (ev : Event) :
    (handler jsonParse e ev).1.statusCode = 200
    ∨ (handler jsonParse e ev).1.statusCode = 400
    ∨ (handler jsonParse e ev).1.statusCode = 500 := by
  rw [handler_decode]
  cases hdec : decodeBody jsonParse ev.body with
  | error pm => right; left; rfl
  | ok rd =>
    show (runRequest e rd).1.statusCode = 200
      ∨ (runRequest e rd).1.statusCode = 400
      ∨ (runRequest e rd).1.statusCode = 500
    unfold runRequest
    rcases hq : queryKnowledgeBase e rd with ⟨res, tr⟩
    cases res with
    | ok result => left; simp [okResponse]
    | error msg => right; right; simp [serverErrorResponse]

end Lambda
